import Mathlib

/-!
Verification of the spreadsheet-validation endpoint in `src/main.py`
(`upload_excel`): a shallow embedding of the decoded-grid pipeline
(header lower-casing, missing-column check, column selection, `dropna`,
per-column whitespace strip, per-row validation, response assembly),
with theorems settling the specification claims.
-/

set_option autoImplicit false

namespace PciExtract

/-- A raw spreadsheet cell as delivered by the decoder (`pandas.read_excel`):
a blank cell (NaN), a text cell, an integer-valued numeric cell, or a
non-integral float.  A float is represented by its truncation toward zero
(Python `int()` on a finite float truncates) together with a flag telling
whether the original value had a nonzero fractional part; NaN is `blank`. -/
inductive Cell where
  | blank : Cell
  | str : String → Cell
  | int : Int → Cell
  | float : Int → Bool → Cell
  deriving DecidableEq

/-- The decoded grid: header cell values (as text) and the data rows
(rows 2..N of the sheet, 0-based here, each a list of cells). -/
structure Grid where
  header : List String
  rows : List (List Cell)

/-- Outcome of one request: HTTP 200 with the record list (each record is the
triple of raw cell values for road_name, pcivalue_2019, pcivalue_2021), or an
HTTP error with a status code and a detail string. -/
inductive Response where
  | ok : List (Cell × Cell × Cell) → Response
  | httpError : Nat → String → Response
  deriving DecidableEq

/-- ASCII lower-casing of a string, embedding `str.lower` as used by
`df.columns.str.lower()` on the header names. -/
def pyLower (s : String) : String :=
  ⟨s.data.map Char.toLower⟩

/-- Python `str.strip` / pandas `Series.str.strip`: drop whitespace from both
ends (ASCII whitespace; the sheets in question contain no exotic spaces). -/
def pyStrip (s : String) : String :=
  ⟨((s.data.dropWhile Char.isWhitespace).reverse.dropWhile Char.isWhitespace).reverse⟩

/-- Accumulate a decimal digit string into a number; any non-digit fails. -/
def digitsToNatAux : List Char → Nat → Option Nat
  | [], acc => some acc
  | c :: cs, acc =>
    if c.isDigit then digitsToNatAux cs (10 * acc + (c.toNat - 48)) else none

/-- A non-empty all-digit character list as a number. -/
def digitsToNat : List Char → Option Nat
  | [] => none
  | c :: cs => digitsToNatAux (c :: cs) 0

/-- Python `int(s)` on a string: surrounding whitespace is ignored, an
optional sign is followed by decimal digits; anything else (including a
fractional literal such as "3.7") raises `ValueError`, i.e. `none` here. -/
def pyIntOfString (s : String) : Option Int :=
  match (pyStrip s).data with
  | '+' :: cs => (digitsToNat cs).map (fun n => (n : Int))
  | '-' :: cs => (digitsToNat cs).map (fun n => -(n : Int))
  | cs => (digitsToNat cs).map (fun n => (n : Int))

/-- Python `int(cell)` as used at `main.py` lines 87-88: an int is itself, a
finite float truncates toward zero (so `int(3.7) = 3`, no error), a string is
parsed as a signed digit string, and NaN raises `ValueError` (`none`). -/
def pyInt : Cell → Option Int
  | Cell.blank => none
  | Cell.str s => pyIntOfString s
  | Cell.int n => some n
  | Cell.float t _ => some t

/-- Is the cell a NaN (missing value) in pandas terms? -/
def isBlank : Cell → Bool
  | Cell.blank => true
  | _ => false

/-- Is the cell a text cell?  A pandas column holds dtype `object` (and is
subject to `.str.strip()`) exactly when it contains a text cell. -/
def isStr : Cell → Bool
  | Cell.str _ => true
  | _ => false

/-- `Series.str.strip` elementwise: text is trimmed, every non-text element
(numbers, NaN) becomes NaN. -/
def stripCell : Cell → Cell
  | Cell.str s => Cell.str (pyStrip s)
  | _ => Cell.blank

/-- Truthiness test of `not str(cell).strip()` at `main.py` line 105: only a
text cell can strip to the empty string, since `str()` of an int, a float or
NaN ("nan") is never whitespace-only. -/
def strStripEmpty : Cell → Bool
  | Cell.str s => pyStrip s == ""
  | _ => false

/-- The required column names, in declaration order (`main.py` lines 21-25). -/
def REQUIRED_COLUMNS : List String :=
  ["road_name", "pcivalue_2019", "pcivalue_2021"]

/-- `df.columns.str.lower()` (`main.py` line 64): lower-case every header
name.  Note: no whitespace trimming is applied. -/
def lowerHeader (header : List String) : List String :=
  header.map pyLower

/-- `main.py` line 65: the required columns not present among the lowered
header names. -/
def missingColumns (header : List String) : List String :=
  REQUIRED_COLUMNS.filter (fun c => !(lowerHeader header).contains c)

/-- Position of a required column among the lowered headers (first match). -/
def colIndex (lh : List String) (c : String) : Nat :=
  lh.indexOf c

/-- Select the three required cells of each data row, keeping the 0-based
pandas row index (`df[list(REQUIRED_COLUMNS)]` plus the index that
`iterrows` later reports); a row too short for a column reads as NaN. -/
def selectRowsAux (lh : List String) (i : Nat) :
    List (List Cell) → List (Nat × Cell × Cell × Cell)
  | [] => []
  | row :: rest =>
    (i, row.getD (colIndex lh "road_name") Cell.blank,
        row.getD (colIndex lh "pcivalue_2019") Cell.blank,
        row.getD (colIndex lh "pcivalue_2021") Cell.blank)
      :: selectRowsAux lh (i + 1) rest

/-- All data rows with their pandas index, restricted to the three columns. -/
def selectRows (lh : List String) (rows : List (List Cell)) :
    List (Nat × Cell × Cell × Cell) :=
  selectRowsAux lh 0 rows

/-- Does the selected row contain a missing (NaN) value? -/
def rowHasBlank (r : Nat × Cell × Cell × Cell) : Bool :=
  isBlank r.2.1 || isBlank r.2.2.1 || isBlank r.2.2.2

/-- `df.dropna()` (`main.py` line 78): remove the rows with any missing
value; surviving rows keep their original index. -/
def dropna (xs : List (Nat × Cell × Cell × Cell)) :
    List (Nat × Cell × Cell × Cell) :=
  xs.filter (fun r => !rowHasBlank r)

/-- Apply `Series.str.strip` to the cells of one row, column by column,
where `o1 o2 o3` say which of the three columns has dtype `object`. -/
def stripFun (o1 o2 o3 : Bool) (r : Nat × Cell × Cell × Cell) :
    Nat × Cell × Cell × Cell :=
  (r.1,
   if o1 then stripCell r.2.1 else r.2.1,
   if o2 then stripCell r.2.2.1 else r.2.2.1,
   if o3 then stripCell r.2.2.2 else r.2.2.2)

/-- `main.py` line 79: strip whitespace from the columns of dtype `object`.
A column's dtype is fixed when the sheet is read, over all data rows (`all`),
and is not re-inferred by `dropna`; the strip is then applied to the
surviving rows (`kept`).  In an object column every non-text element becomes
NaN (`Series.str.strip` semantics). -/
def stripRows (all kept : List (Nat × Cell × Cell × Cell)) :
    List (Nat × Cell × Cell × Cell) :=
  kept.map (stripFun
    (all.any (fun r => isStr r.2.1))
    (all.any (fun r => isStr r.2.2.1))
    (all.any (fun r => isStr r.2.2.2)))

/-- The cleaned rows reaching the validation loop: select the required
columns, drop rows with missing values, strip the object columns. -/
def cleanedRows (g : Grid) : List (Nat × Cell × Cell × Cell) :=
  stripRows (selectRows (lowerHeader g.header) g.rows)
    (dropna (selectRows (lowerHeader g.header) g.rows))

/-- The `Row <n>:` tag of every validation message: pandas index `i` plus 2
(header row is sheet row 1, so data row `i` is sheet row `i + 2`). -/
def rowTag (i : Nat) : String :=
  "Row " ++ toString (i + 2) ++ ":"

/-- `main.py` lines 106-108. -/
def emptyMsg (i : Nat) : String :=
  rowTag i ++ " road_name cannot be empty"

/-- `main.py` lines 100-102. -/
def integersMsg (i : Nat) : String :=
  rowTag i ++ " PCI values must be integers"

/-- `main.py` lines 91-93. -/
def rangeMsg2019 (i : Nat) (v : Int) : String :=
  rowTag i ++ " pcivalue_2019 must be between 1-5, got " ++ toString v

/-- `main.py` lines 95-97. -/
def rangeMsg2021 (i : Nat) (v : Int) : String :=
  rowTag i ++ " pcivalue_2021 must be between 1-5, got " ++ toString v

/-- The `try` block of `main.py` lines 86-102: both coercions run inside one
`try`, so the first `ValueError` (from either cell) aborts the block with the
single combined message and skips the range checks; when both coercions
succeed, the two range checks run independently of one another. -/
def pciErrors (i : Nat) (p q : Cell) : List String :=
  match pyInt p with
  | none => [integersMsg i]
  | some a =>
    match pyInt q with
    | none => [integersMsg i]
    | some b =>
      (if 1 ≤ a ∧ a ≤ 5 then [] else [rangeMsg2019 i a]) ++
      (if 1 ≤ b ∧ b ≤ 5 then [] else [rangeMsg2021 i b])

/-- The road-name emptiness check of `main.py` lines 104-108, which runs
after the `try` block and regardless of its outcome. -/
def nameError (i : Nat) (n : Cell) : List String :=
  if strStripEmpty n then [emptyMsg i] else []

/-- All messages the loop body appends for one row, in appended order. -/
def rowErrors (i : Nat) (n p q : Cell) : List String :=
  pciErrors i p q ++ nameError i n

/-- The full `validation_errors` list after the loop over `df.iterrows()`. -/
def allErrors (xs : List (Nat × Cell × Cell × Cell)) : List String :=
  (xs.map (fun r => rowErrors r.1 r.2.1 r.2.2.1 r.2.2.2)).flatten

/-- `", ".join(...)`. -/
def joinComma : List String → String
  | [] => ""
  | [x] => x
  | x :: y :: xs => x ++ ", " ++ joinComma (y :: xs)

/-- `"\n".join(...)`. -/
def joinLines : List String → String
  | [] => ""
  | [x] => x
  | x :: y :: xs => x ++ "\n" ++ joinLines (y :: xs)

/-- The detail string of the missing-columns failure (`main.py` 68-72). -/
def schemaDetail (missing : List String) : String :=
  "Missing required columns: " ++ joinComma missing ++
    ". Required columns are: " ++ joinComma REQUIRED_COLUMNS

/-- The detail string of a row-validation failure (`main.py` 110-114). -/
def validationDetail (errs : List String) : String :=
  "Data validation errors:\n" ++ joinLines errs

/-- The endpoint body from the decoded grid on (`main.py` lines 63-119):
missing-column check, cleaning, row validation, response assembly. -/
def upload_excel (g : Grid) : Response :=
  if missingColumns g.header = [] then
    if allErrors (cleanedRows g) = [] then
      Response.ok ((cleanedRows g).map (fun r => r.2))
    else
      Response.httpError 400 (validationDetail (allErrors (cleanedRows g)))
  else
    Response.httpError 400 (schemaDetail (missingColumns g.header))

/-- The outer `except Exception` handler of `main.py` lines 124-128: an
unanticipated failure with message `m` (Python `str(e)`) becomes an HTTP 500
whose detail embeds that message. -/
def handleUnexpected (m : String) : Response :=
  Response.httpError 500 ("An unexpected error occurred: " ++ m)

/-- The record a source row yields when the whole upload is valid: the
road-name text trimmed, the two PCI cells kept raw. -/
def recordOfRow (lh : List String) (row : List Cell) : Cell × Cell × Cell :=
  (stripCell (row.getD (colIndex lh "road_name") Cell.blank),
   row.getD (colIndex lh "pcivalue_2019") Cell.blank,
   row.getD (colIndex lh "pcivalue_2021") Cell.blank)

/-- A well-formed data row: a road-name text cell with non-empty trimmed
content, and two in-range integer PCI cells. -/
def GoodRow (lh : List String) (row : List Cell) : Prop :=
  (∃ s, row.getD (colIndex lh "road_name") Cell.blank = Cell.str s ∧ pyStrip s ≠ "") ∧
  (∃ a : Int, row.getD (colIndex lh "pcivalue_2019") Cell.blank = Cell.int a ∧ 1 ≤ a ∧ a ≤ 5) ∧
  (∃ b : Int, row.getD (colIndex lh "pcivalue_2021") Cell.blank = Cell.int b ∧ 1 ≤ b ∧ b ≤ 5)

/-- `GoodRow` transported to a selected row (index plus three cells). -/
def GoodSel (r : Nat × Cell × Cell × Cell) : Prop :=
  (∃ s, r.2.1 = Cell.str s ∧ pyStrip s ≠ "") ∧
  (∃ a : Int, r.2.2.1 = Cell.int a ∧ 1 ≤ a ∧ a ≤ 5) ∧
  (∃ b : Int, r.2.2.2 = Cell.int b ∧ 1 ≤ b ∧ b ≤ 5)

/-- A PCI pair that the validation loop must flag: a coercion failure on
either cell, or a successfully coerced value out of the range [1,5]. -/
def badPci (p q : Cell) : Prop :=
  pyInt p = none ∨ pyInt q = none ∨
    (∃ a, pyInt p = some a ∧ ¬(1 ≤ a ∧ a ≤ 5)) ∨
    (∃ b, pyInt q = some b ∧ ¬(1 ≤ b ∧ b ≤ 5))

/-- Does the character list start with the given pattern? -/
def beginsWith : List Char → List Char → Bool
  | _, [] => true
  | [], _ :: _ => false
  | a :: as, b :: bs => (a == b) && beginsWith as bs

/-- Does the character list contain the pattern as a contiguous run? -/
def containsSeq : List Char → List Char → Bool
  | [], pat => beginsWith [] pat
  | c :: cs, pat => beginsWith (c :: cs) pat || containsSeq cs pat

/-- Right-side trim: drop the trailing elements satisfying `p`. -/
def dropEndWhile {α : Type} (p : α → Bool) (l : List α) : List α :=
  (l.reverse.dropWhile p).reverse

/-- Trim from both ends, the char-list heart of `pyStrip`. -/
def stripList {α : Type} (p : α → Bool) (l : List α) : List α :=
  dropEndWhile p (l.dropWhile p)

/-- The canonical well-formed header row. -/
def hdr3 : List String := ["road_name", "pcivalue_2019", "pcivalue_2021"]

/-- One valid data row. -/
def gValid : Grid := ⟨hdr3, [[Cell.str "Main St", Cell.int 3, Cell.int 4]]⟩

/-- One data row with an out-of-range pcivalue_2019. -/
def gElm : Grid := ⟨hdr3, [[Cell.str "Elm St", Cell.int 7, Cell.int 2]]⟩

/-- An out-of-range pcivalue_2019 in a row whose road_name cell is blank. -/
def gBlankName7 : Grid := ⟨hdr3, [[Cell.blank, Cell.int 7, Cell.int 2]]⟩

/-- Header row that lacks pcivalue_2021. -/
def gMissing : Grid := ⟨["road_name", "pcivalue_2019"], []⟩

/-- Header literal with a trailing space on Road_Name. -/
def gSpaceHdr : Grid :=
  ⟨["Road_Name ", "pcivalue_2019", "pcivalue_2021"],
   [[Cell.str "Main St", Cell.int 3, Cell.int 4]]⟩

/-- A valid row except that the pcivalue_2019 cell is blank. -/
def gBlankPci : Grid := ⟨hdr3, [[Cell.str "Main St", Cell.blank, Cell.int 3]]⟩

/-- The pcivalue_2019 cell holds the float 3.7 (truncation 3, fractional). -/
def gFloatFrac : Grid := ⟨hdr3, [[Cell.str "Main St", Cell.float 3 true, Cell.int 4]]⟩

/-- pcivalue_2019 out of range and pcivalue_2021 non-coercible in one row. -/
def gShortCircuit : Grid := ⟨hdr3, [[Cell.str "Main St", Cell.int 7, Cell.str "x"]]⟩

/-- A row whose road_name is the empty string. -/
def gEmptyName : Grid := ⟨hdr3, [[Cell.str "", Cell.int 2, Cell.int 3]]⟩

/-- Empty road_name in a row that also has a blank PCI cell. -/
def gEmptyNameBlank : Grid := ⟨hdr3, [[Cell.str "", Cell.blank, Cell.int 3]]⟩

/-- PCI cells holding the numeric string "3" and the float 3.0. -/
def gRawCells : Grid := ⟨hdr3, [[Cell.str "Main St", Cell.str "3", Cell.float 3 false]]⟩

section ListLemmas

variable {α : Type} (p : α → Bool)

theorem dropWhile_first_false :
    ∀ {l : List α} {c : α} {cs : List α}, l.dropWhile p = c :: cs → p c = false := by
  intro l
  induction l with
  | nil => intro c cs h; simp [List.dropWhile] at h
  | cons a as ih =>
    intro c cs h
    rw [List.dropWhile_cons] at h
    by_cases hp : p a = true
    · exact ih (by simpa [hp] using h)
    · simp [hp] at h
      rw [← h.1]
      simpa using hp

theorem dropWhile_idem (l : List α) :
    (l.dropWhile p).dropWhile p = l.dropWhile p := by
  cases h : l.dropWhile p with
  | nil => simp
  | cons c cs =>
    have hc : p c = false := dropWhile_first_false p h
    simp [List.dropWhile_cons, hc]

theorem dropWhile_is_suffix (l : List α) :
    ∃ t, t ++ l.dropWhile p = l := by
  induction l with
  | nil => exact ⟨[], rfl⟩
  | cons a as ih =>
    by_cases hp : p a = true
    · obtain ⟨t, ht⟩ := ih
      exact ⟨a :: t, by simp [List.dropWhile_cons, hp, ht]⟩
    · exact ⟨[], by simp [List.dropWhile_cons, hp]⟩

theorem dropWhile_eq_self_of_append {x l : List α}
    (hx : ∃ t, x ++ t = l) (hl : l.dropWhile p = l) :
    x.dropWhile p = x := by
  cases x with
  | nil => simp
  | cons c cs =>
    obtain ⟨t, ht⟩ := hx
    have hl' : l.dropWhile p = c :: (cs ++ t) := by rw [hl, ← ht]; simp
    have hc : p c = false := dropWhile_first_false p hl'
    simp [List.dropWhile_cons, hc]

theorem dropEndWhile_idem (l : List α) :
    dropEndWhile p (dropEndWhile p l) = dropEndWhile p l := by
  unfold dropEndWhile
  rw [List.reverse_reverse, dropWhile_idem]

theorem dropEndWhile_front_part (l : List α) :
    ∃ t, dropEndWhile p l ++ t = l := by
  obtain ⟨t, ht⟩ := dropWhile_is_suffix p l.reverse
  refine ⟨t.reverse, ?_⟩
  have := congrArg List.reverse ht
  simpa [dropEndWhile] using this

theorem dropWhile_dropEndWhile {l : List α} (hl : l.dropWhile p = l) :
    (dropEndWhile p l).dropWhile p = dropEndWhile p l :=
  dropWhile_eq_self_of_append p (dropEndWhile_front_part p l) hl

theorem stripList_idem (l : List α) :
    stripList p (stripList p l) = stripList p l := by
  unfold stripList
  rw [dropWhile_dropEndWhile p (dropWhile_idem p l), dropEndWhile_idem]

end ListLemmas

theorem pyStrip_eq_stripList (s : String) :
    pyStrip s = ⟨stripList Char.isWhitespace s.data⟩ := rfl

theorem pyStrip_idem (s : String) : pyStrip (pyStrip s) = pyStrip s := by
  show String.mk (stripList Char.isWhitespace (stripList Char.isWhitespace s.data)) =
    String.mk (stripList Char.isWhitespace s.data)
  exact congrArg String.mk (stripList_idem Char.isWhitespace s.data)

theorem strData_append (a b : String) : (a ++ b).data = a.data ++ b.data := rfl

theorem strMk_data (s : String) : String.mk s.data = s := rfl

theorem strAppend_cancel_left {a x y : String} (h : a ++ x = a ++ y) : x = y := by
  have hd : a.data ++ x.data = a.data ++ y.data := by
    have := congrArg String.data h
    simpa [strData_append] using this
  have := List.append_cancel_left hd
  calc x = String.mk x.data := rfl
  _ = String.mk y.data := congrArg String.mk this
  _ = y := rfl

theorem strAppend_assoc (a b c : String) : a ++ b ++ c = a ++ (b ++ c) := by
  have : (a ++ b ++ c).data = (a ++ (b ++ c)).data := by
    simp [strData_append]
  calc a ++ b ++ c = String.mk (a ++ b ++ c).data := rfl
  _ = String.mk (a ++ (b ++ c)).data := congrArg String.mk this
  _ = a ++ (b ++ c) := rfl

theorem beginsWith_append (pat rest : List Char) :
    beginsWith (pat ++ rest) pat = true := by
  induction pat with
  | nil => cases rest <;> rfl
  | cons a as ih => simp [beginsWith, ih]

theorem beginsWith_shorten :
    ∀ {l pt q : List Char}, beginsWith l (pt ++ q) = true → beginsWith l pt = true := by
  intro l
  induction l with
  | nil =>
    intro pt q h
    cases pt with
    | nil => rfl
    | cons b bs => simp [beginsWith] at h
  | cons a as ih =>
    intro pt q h
    cases pt with
    | nil => rfl
    | cons b bs =>
      simp only [List.cons_append, beginsWith, Bool.and_eq_true] at h ⊢
      exact ⟨h.1, ih h.2⟩

theorem containsSeq_of_beginsWith {l pat : List Char}
    (h : beginsWith l pat = true) : containsSeq l pat = true := by
  cases l <;> simp [containsSeq, h]

theorem containsSeq_cons {l pat : List Char} (c : Char)
    (h : containsSeq l pat = true) : containsSeq (c :: l) pat = true := by
  simp [containsSeq, h]

theorem containsSeq_append_left (pre : List Char) {l pat : List Char}
    (h : containsSeq l pat = true) : containsSeq (pre ++ l) pat = true := by
  induction pre with
  | nil => simpa using h
  | cons c cs ih => exact containsSeq_cons c ih

theorem containsSeq_shorten :
    ∀ {l pt q : List Char}, containsSeq l (pt ++ q) = true → containsSeq l pt = true := by
  intro l
  induction l with
  | nil =>
    intro pt q h
    exact containsSeq_of_beginsWith (beginsWith_shorten h)
  | cons a as ih =>
    intro pt q h
    simp only [containsSeq, Bool.or_eq_true] at h ⊢
    rcases h with h | h
    · exact Or.inl (beginsWith_shorten h)
    · exact Or.inr (ih h)

theorem joinLines_containsSeq {m : String} :
    ∀ {l : List String}, m ∈ l → containsSeq (joinLines l).data m.data = true := by
  intro l
  induction l with
  | nil => intro h; cases h
  | cons x xs ih =>
    intro h
    cases xs with
    | nil =>
      have hx : m = x := by simpa using h
      subst hx
      show containsSeq (joinLines [m]).data m.data = true
      have : (joinLines [m]).data = m.data ++ [] := by simp [joinLines]
      rw [this]
      exact containsSeq_of_beginsWith (beginsWith_append m.data [])
    | cons y ys =>
      have hjoin : joinLines (x :: y :: ys) = x ++ "\n" ++ joinLines (y :: ys) := rfl
      rcases List.mem_cons.mp h with hx | hmem
      · subst hx
        rw [hjoin, strAppend_assoc, strData_append]
        exact containsSeq_of_beginsWith (beginsWith_append m.data _)
      · have hrec := ih hmem
        rw [hjoin, strData_append]
        exact containsSeq_append_left _ hrec

theorem validationDetail_containsSeq {m : String} {errs : List String}
    (h : m ∈ errs) : containsSeq (validationDetail errs).data m.data = true := by
  unfold validationDetail
  rw [strData_append]
  exact containsSeq_append_left _ (joinLines_containsSeq h)

theorem integersMsg_tagged (i : Nat) : ∃ r, integersMsg i = rowTag i ++ r :=
  ⟨" PCI values must be integers", rfl⟩

theorem emptyMsg_tagged (i : Nat) : ∃ r, emptyMsg i = rowTag i ++ r :=
  ⟨" road_name cannot be empty", rfl⟩

theorem rangeMsg2019_tagged (i : Nat) (v : Int) :
    ∃ r, rangeMsg2019 i v = rowTag i ++ r :=
  ⟨" pcivalue_2019 must be between 1-5, got " ++ toString v, strAppend_assoc _ _ _⟩

theorem rangeMsg2021_tagged (i : Nat) (v : Int) :
    ∃ r, rangeMsg2021 i v = rowTag i ++ r :=
  ⟨" pcivalue_2021 must be between 1-5, got " ++ toString v, strAppend_assoc _ _ _⟩

theorem mem_pciErrors_tagged {i : Nat} {p q : Cell} {m : String}
    (h : m ∈ pciErrors i p q) : ∃ rest, m = rowTag i ++ rest := by
  unfold pciErrors at h
  rcases hp : pyInt p with _ | a <;> rw [hp] at h
  · exact (List.mem_singleton.mp h) ▸ integersMsg_tagged i
  · rcases hq : pyInt q with _ | b <;> rw [hq] at h
    · exact (List.mem_singleton.mp h) ▸ integersMsg_tagged i
    · rcases List.mem_append.mp h with h | h <;> split_ifs at h <;> simp at h
      · exact h ▸ rangeMsg2019_tagged i a
      · exact h ▸ rangeMsg2021_tagged i b

theorem rowErrors_tagged {i : Nat} {n p q : Cell} {m : String}
    (h : m ∈ rowErrors i n p q) : ∃ rest, m = rowTag i ++ rest := by
  unfold rowErrors nameError at h
  rcases List.mem_append.mp h with h | h
  · exact mem_pciErrors_tagged h
  · split_ifs at h <;> simp at h
    exact h ▸ emptyMsg_tagged i

theorem bad_row_has_message (i : Nat) (n : Cell) {p q : Cell} (hbad : badPci p q) :
    ∃ m, m ∈ rowErrors i n p q := by
  unfold rowErrors pciErrors
  rcases hp : pyInt p with _ | a
  · exact ⟨integersMsg i, List.mem_append_left _ (List.mem_singleton.mpr rfl)⟩
  · rcases hq : pyInt q with _ | b
    · exact ⟨integersMsg i, List.mem_append_left _ (List.mem_singleton.mpr rfl)⟩
    · rcases hbad with h | h | ⟨a', ha', hr⟩ | ⟨b', hb', hr⟩
      · rw [hp] at h; cases h
      · rw [hq] at h; cases h
      · rw [hp] at ha'
        cases Option.some.inj ha'
        refine ⟨rangeMsg2019 i a, List.mem_append_left _ (List.mem_append_left _ ?_)⟩
        rw [if_neg hr]
        exact List.mem_singleton.mpr rfl
      · rw [hq] at hb'
        cases Option.some.inj hb'
        refine ⟨rangeMsg2021 i b, List.mem_append_left _ (List.mem_append_right _ ?_)⟩
        rw [if_neg hr]
        exact List.mem_singleton.mpr rfl

theorem mem_allErrors {xs : List (Nat × Cell × Cell × Cell)}
    {r : Nat × Cell × Cell × Cell} (hr : r ∈ xs) {m : String}
    (hm : m ∈ rowErrors r.1 r.2.1 r.2.2.1 r.2.2.2) :
    m ∈ allErrors xs := by
  unfold allErrors
  exact List.mem_flatten.mpr ⟨_, List.mem_map_of_mem _ hr, hm⟩

theorem upload_excel_error_of_errs {g : Grid}
    (hm : missingColumns g.header = [])
    (hne : allErrors (cleanedRows g) ≠ []) :
    upload_excel g =
      Response.httpError 400 (validationDetail (allErrors (cleanedRows g))) := by
  unfold upload_excel
  rw [if_pos hm, if_neg hne]


/-- C2 (counterexample): for the data row ["Elm St", 7, 2] the endpoint does
return 400, but the detail reads `Row 2: pcivalue_2019 must be between 1-5,
got 7`, which does not contain the claimed text `Row 2: pcivalue_2019 must
be 1-5, got 7`; moreover a row whose road_name cell is blank escapes the
strict failure altogether (the claimed 400 never happens), because `dropna`
removes it before validation. -/
theorem badPci_detail_mismatch :
    upload_excel gElm = Response.httpError 400
      "Data validation errors:\nRow 2: pcivalue_2019 must be between 1-5, got 7" ∧
    containsSeq
      "Data validation errors:\nRow 2: pcivalue_2019 must be between 1-5, got 7".data
      "Row 2: pcivalue_2019 must be 1-5, got 7".data = false ∧
    upload_excel gBlankName7 = Response.ok [] := by
  refine ⟨by decide, by decide, by decide⟩

/-- C2 (amended): if the header is complete and some row that survives the
blank-row filter carries a PCI cell that `int()` fails to coerce or coerces
to a value outside [1,5], then the whole request fails with HTTP 400, the
detail contains that row's `Row <n>:` tag, and no records are returned. -/
theorem upload_badPci_fails (g : Grid) (hm : missingColumns g.header = [])
    (r : Nat × Cell × Cell × Cell) (hr : r ∈ cleanedRows g)
    (hbad : badPci r.2.2.1 r.2.2.2) :
    upload_excel g =
      Response.httpError 400 (validationDetail (allErrors (cleanedRows g))) ∧
    containsSeq (validationDetail (allErrors (cleanedRows g))).data
      (rowTag r.1).data = true ∧
    ∀ recs, upload_excel g ≠ Response.ok recs := by
  obtain ⟨m, hmem⟩ := bad_row_has_message r.1 r.2.1 hbad
  have hall : m ∈ allErrors (cleanedRows g) := mem_allErrors hr hmem
  have hne : allErrors (cleanedRows g) ≠ [] := List.ne_nil_of_mem hall
  have hup := upload_excel_error_of_errs hm hne
  refine ⟨hup, ?_, ?_⟩
  · obtain ⟨rest, hrest⟩ := rowErrors_tagged hmem
    have hcs := validationDetail_containsSeq hall
    rw [hrest, strData_append] at hcs
    exact containsSeq_shorten hcs
  · intro recs hcontra
    rw [hup] at hcontra
    exact Response.noConfusion hcontra

/-- Witness for `upload_badPci_fails` at the grid with data row
["Elm St", 7, 2]. -/
theorem upload_badPci_fails_witness :
    upload_excel gElm =
      Response.httpError 400 (validationDetail (allErrors (cleanedRows gElm))) ∧
    containsSeq (validationDetail (allErrors (cleanedRows gElm))).data
      (rowTag 0).data = true ∧
    ∀ recs, upload_excel gElm ≠ Response.ok recs :=
  upload_badPci_fails gElm rfl (0, Cell.str "Elm St", Cell.int 7, Cell.int 2)
    (by decide) (Or.inr (Or.inr (Or.inl ⟨7, rfl, by decide⟩)))

/-- C3: a header lacking required columns yields HTTP 400 whose detail is the
schema message listing exactly the missing columns (a required column is
listed as missing precisely when no lowered header cell equals it), the
response is computed without looking at any data row, and no records are
returned. -/
theorem missing_columns_schema_error (g : Grid)
    (h : missingColumns g.header ≠ []) :
    upload_excel g = Response.httpError 400 (schemaDetail (missingColumns g.header)) ∧
    (∀ c, c ∈ missingColumns g.header ↔
      c ∈ REQUIRED_COLUMNS ∧ c ∉ lowerHeader g.header) ∧
    (∀ rows2, upload_excel ⟨g.header, rows2⟩ = upload_excel g) ∧
    (∀ recs, upload_excel g ≠ Response.ok recs) := by
  have hup : upload_excel g =
      Response.httpError 400 (schemaDetail (missingColumns g.header)) := by
    unfold upload_excel
    rw [if_neg h]
  refine ⟨hup, ?_, ?_, ?_⟩
  · intro c
    unfold missingColumns
    simp [List.mem_filter]
  · intro rows2
    have h2 : upload_excel ⟨g.header, rows2⟩ =
        Response.httpError 400 (schemaDetail (missingColumns g.header)) := by
      unfold upload_excel
      rw [if_neg h]
    rw [h2, hup]
  · intro recs hc
    rw [hup] at hc
    exact Response.noConfusion hc

/-- Witness for `missing_columns_schema_error` at a header that lacks
pcivalue_2021. -/
theorem missing_columns_schema_error_witness :
    upload_excel gMissing =
      Response.httpError 400 (schemaDetail (missingColumns gMissing.header)) ∧
    (∀ c, c ∈ missingColumns gMissing.header ↔
      c ∈ REQUIRED_COLUMNS ∧ c ∉ lowerHeader gMissing.header) ∧
    (∀ rows2, upload_excel ⟨gMissing.header, rows2⟩ = upload_excel gMissing) ∧
    (∀ recs, upload_excel gMissing ≠ Response.ok recs) :=
  missing_columns_schema_error gMissing (by decide)

/-- C4 (counterexample): the header literal "Road_Name " (trailing space)
does NOT resolve the required field road_name — the code lower-cases header
cells but never trims them, so the request fails with road_name reported
missing. -/
theorem header_space_not_trimmed :
    upload_excel gSpaceHdr = Response.httpError 400
      ("Missing required columns: road_name. " ++
       "Required columns are: road_name, pcivalue_2019, pcivalue_2021") ∧
    "road_name" ∈ missingColumns gSpaceHdr.header := by
  refine ⟨by decide, by decide⟩

/-- C4 (amended): header matching is case-insensitive only: a required name
resolves exactly when some header cell lower-cases (without any whitespace
trimming) to it. -/
theorem header_match_case_insensitive (header : List String) (c : String)
    (hc : c ∈ REQUIRED_COLUMNS) :
    c ∉ missingColumns header ↔ ∃ h ∈ header, pyLower h = c := by
  unfold missingColumns lowerHeader
  simp [List.mem_filter, hc]

/-- Witness for `header_match_case_insensitive`: "ROAD_NAME" resolves
road_name. -/
theorem header_match_case_insensitive_witness :
    "road_name" ∉ missingColumns ["ROAD_NAME"] ↔
      ∃ h ∈ ["ROAD_NAME"], pyLower h = "road_name" :=
  header_match_case_insensitive ["ROAD_NAME"] "road_name" (by decide)

/-- C5 (counterexample): a row whose pcivalue_2019 cell is blank is silently
removed by `dropna` before validation: the request succeeds with zero
records instead of failing with a row validation error. -/
theorem blank_pci_row_silently_dropped :
    upload_excel gBlankPci = Response.ok [] := by decide

/-- C5 (amended): rows containing any blank required cell are removed before
validation and are never reported: when every data row has a blank required
cell the endpoint returns HTTP 200 with an empty record list. -/
theorem all_blank_rows_give_ok_empty (g : Grid)
    (hm : missingColumns g.header = [])
    (hall : ∀ r ∈ selectRows (lowerHeader g.header) g.rows, rowHasBlank r = true) :
    upload_excel g = Response.ok [] := by
  have hdrop : dropna (selectRows (lowerHeader g.header) g.rows) = [] := by
    unfold dropna
    refine List.filter_eq_nil_iff.mpr ?_
    intro r hr
    simp [hall r hr]
  have hclean : cleanedRows g = [] := by
    unfold cleanedRows
    rw [hdrop]
    rfl
  unfold upload_excel
  rw [if_pos hm, hclean]
  rfl

/-- Witness for `all_blank_rows_give_ok_empty` at the single-row grid with a
blank pcivalue_2019. -/
theorem all_blank_rows_give_ok_empty_witness :
    upload_excel gBlankPci = Response.ok [] :=
  all_blank_rows_give_ok_empty gBlankPci rfl (by decide)

/-- C9 (counterexample): the 500 handler embeds the exception text `str(e)`
in the detail, so the detail varies with the internal failure and is not a
fixed generic message. -/
theorem unexpected_error_detail_varies :
    handleUnexpected "division by zero" =
      Response.httpError 500 "An unexpected error occurred: division by zero" ∧
    handleUnexpected "division by zero" ≠ handleUnexpected "KeyError: 'x'" := by
  refine ⟨rfl, by decide⟩

/-- C9 (amended): every unanticipated failure is reported as HTTP 500 whose
detail is the fixed text "An unexpected error occurred: " followed by the
exception's own message (no stack trace, but the message is exposed). -/
theorem unexpected_error_500_with_message (m : String) :
    handleUnexpected m =
      Response.httpError 500 ("An unexpected error occurred: " ++ m) := rfl


/-- C6 (counterexample): a PCI cell holding 3.7 (a float with truncation 3
and a fractional part) is not a coercion failure: `int()` truncates it to 3,
which is in range, so the upload succeeds — and the record keeps the raw
float cell. -/
theorem fractional_float_truncates :
    pyInt (Cell.float 3 true) = some 3 ∧
    upload_excel gFloatFrac =
      Response.ok [(Cell.str "Main St", Cell.float 3 true, Cell.int 4)] := by
  refine ⟨rfl, by decide⟩

/-- C6 (amended): integer coercion accepts int cells, any finite float cell
(truncating toward zero, fractional or not), and strings that strip to an
optionally signed digit sequence; it rejects non-numeric strings, fractional
strings such as "3.7", and blanks; when both cells coerce, each value out of
[1,5] yields its range error. -/
theorem coercion_semantics :
    (∀ (t : Int) (f : Bool), pyInt (Cell.float t f) = some t) ∧
    (∀ n : Int, pyInt (Cell.int n) = some n) ∧
    pyInt (Cell.str "3.7") = none ∧
    pyInt (Cell.str " 42 ") = some 42 ∧
    pyInt (Cell.str "-7") = some (-7) ∧
    pyInt (Cell.str "abc") = none ∧
    pyInt Cell.blank = none ∧
    (∀ (i : Nat) (a b : Int),
      pciErrors i (Cell.int a) (Cell.int b) =
        (if 1 ≤ a ∧ a ≤ 5 then [] else [rangeMsg2019 i a]) ++
        (if 1 ≤ b ∧ b ≤ 5 then [] else [rangeMsg2021 i b])) ∧
    (∀ i : Nat, pciErrors i (Cell.str "3.7") (Cell.int 3) = [integersMsg i]) := by
  refine ⟨fun t f => rfl, fun n => rfl, by decide, by decide, by decide,
    by decide, rfl, fun i a b => rfl, fun i => rfl⟩

/-- C7 (counterexample): in the row ["Main St", 7, "x"] the pcivalue_2019
range check does not run: the pcivalue_2021 coercion failure aborts the
shared try block, so the only message is the combined coercion error and the
out-of-range 7 is never reported. -/
theorem range_check_skipped_on_coercion_failure :
    rowErrors 0 (Cell.str "Main St") (Cell.int 7) (Cell.str "x") =
      ["Row 2: PCI values must be integers"] ∧
    rangeMsg2019 0 7 ∉ rowErrors 0 (Cell.str "Main St") (Cell.int 7) (Cell.str "x") ∧
    upload_excel gShortCircuit = Response.httpError 400
      "Data validation errors:\nRow 2: PCI values must be integers" := by
  refine ⟨by decide, by decide, by decide⟩

theorem emptyMsg_ne_integersMsg (i : Nat) : emptyMsg i ≠ integersMsg i := by
  intro h
  unfold emptyMsg integersMsg at h
  have h2 := strAppend_cancel_left h
  exact absurd h2 (by decide)

theorem emptyMsg_ne_rangeMsg2019 (i : Nat) (v : Int) :
    emptyMsg i ≠ rangeMsg2019 i v := by
  intro h
  unfold emptyMsg rangeMsg2019 at h
  rw [strAppend_assoc] at h
  have h2 := strAppend_cancel_left h
  have hlen := congrArg (fun s => s.data.length) h2
  have hA : (" road_name cannot be empty" : String).data.length = 26 := by decide
  have hB : (" pcivalue_2019 must be between 1-5, got " : String).data.length = 40 := by
    decide
  simp only [strData_append, List.length_append, hA, hB] at hlen
  omega

theorem emptyMsg_ne_rangeMsg2021 (i : Nat) (v : Int) :
    emptyMsg i ≠ rangeMsg2021 i v := by
  intro h
  unfold emptyMsg rangeMsg2021 at h
  rw [strAppend_assoc] at h
  have h2 := strAppend_cancel_left h
  have hlen := congrArg (fun s => s.data.length) h2
  have hA : (" road_name cannot be empty" : String).data.length = 26 := by decide
  have hB : (" pcivalue_2021 must be between 1-5, got " : String).data.length = 40 := by
    decide
  simp only [strData_append, List.length_append, hA, hB] at hlen
  omega

theorem emptyMsg_not_mem_pciErrors (i : Nat) (p q : Cell) :
    emptyMsg i ∉ pciErrors i p q := by
  intro h
  unfold pciErrors at h
  rcases hp : pyInt p with _ | a <;> rw [hp] at h
  · exact emptyMsg_ne_integersMsg i (List.mem_singleton.mp h)
  · rcases hq : pyInt q with _ | b <;> rw [hq] at h
    · exact emptyMsg_ne_integersMsg i (List.mem_singleton.mp h)
    · rcases List.mem_append.mp h with h | h <;> split_ifs at h <;> simp at h
      · exact emptyMsg_ne_rangeMsg2019 i a h
      · exact emptyMsg_ne_rangeMsg2021 i b h

/-- C7 (amended): within a row the road-name emptiness check runs no matter
how the PCI block fared (an empty-name error appears exactly when the name
strips to empty), and the two range checks run independently of each other
when both coercions succeed; but both coercions live in one shared try
block, so when either fails the row gets the single combined coercion
message and any pending range error is skipped. -/
theorem row_checks_independence :
    (∀ (i : Nat) (n p q : Cell),
        emptyMsg i ∈ rowErrors i n p q ↔ strStripEmpty n = true) ∧
    (∀ (i : Nat) (n : Cell) (a b : Int),
        rowErrors i n (Cell.int a) (Cell.int b) =
          ((if 1 ≤ a ∧ a ≤ 5 then [] else [rangeMsg2019 i a]) ++
           (if 1 ≤ b ∧ b ≤ 5 then [] else [rangeMsg2021 i b])) ++
          nameError i n) ∧
    (∀ (i : Nat) (n : Cell) (a : Int) (q : Cell), pyInt q = none →
        rowErrors i n (Cell.int a) q = integersMsg i :: nameError i n) := by
  refine ⟨?_, fun i n a b => rfl, ?_⟩
  · intro i n p q
    constructor
    · intro hmem
      rcases List.mem_append.mp hmem with h | h
      · exact absurd h (emptyMsg_not_mem_pciErrors i p q)
      · unfold nameError at h
        split_ifs at h with hss
        · exact hss
        · simp at h
    · intro hss
      refine List.mem_append_right _ ?_
      unfold nameError
      rw [if_pos hss]
      exact List.mem_singleton.mpr rfl
  · intro i n a q hq
    unfold rowErrors pciErrors
    rw [hq]
    exact rfl

/-- Witness for `row_checks_independence`: with pcivalue_2019 = 7 and a
non-coercible pcivalue_2021, the row's messages are exactly the combined
coercion message followed by the name check's output. -/
theorem row_checks_independence_witness :
    rowErrors 0 (Cell.str "A") (Cell.int 7) (Cell.str "x") =
      integersMsg 0 :: nameError 0 (Cell.str "A") :=
  row_checks_independence.2.2 0 (Cell.str "A") 7 (Cell.str "x") rfl

theorem emptyMsg_mem_rowErrors_of_strip (o2 o3 : Bool)
    (r : Nat × Cell × Cell × Cell)
    (s : String) (hs : r.2.1 = Cell.str s) (hemp : pyStrip s = "") :
    emptyMsg (stripFun true o2 o3 r).1 ∈ rowErrors (stripFun true o2 o3 r).1
      (stripFun true o2 o3 r).2.1 (stripFun true o2 o3 r).2.2.1
      (stripFun true o2 o3 r).2.2.2 := by
  show emptyMsg r.1 ∈ rowErrors r.1
    (if true = true then stripCell r.2.1 else r.2.1) _ _
  rw [if_pos rfl, hs]
  unfold rowErrors
  refine List.mem_append_right _ ?_
  have hss : strStripEmpty (stripCell (Cell.str s)) = true := by
    have h1 : stripCell (Cell.str s) = Cell.str (pyStrip s) := rfl
    rw [h1, hemp]
    decide
  unfold nameError
  rw [if_pos hss]
  exact List.mem_singleton.mpr rfl

/-- C8 (counterexample): the data row ["", NaN, 3] has a road_name that
trims to empty, yet no error is produced and the request succeeds with zero
records: `dropna` removes the row (for its blank PCI cell) before the
validator can see the empty name. -/
theorem empty_name_with_blank_cell_dropped :
    upload_excel gEmptyNameBlank = Response.ok [] ∧
    allErrors (cleanedRows gEmptyNameBlank) = [] := by
  refine ⟨by decide, by decide⟩

/-- C8 (amended): if the header is complete and some data row with no blank
required cell has a road_name text cell that strips to empty, the request
fails with HTTP 400 and the detail contains `Row <i+2>: road_name cannot be
empty` for that row's 0-based index i (header row being sheet row 1). -/
theorem empty_name_row_tagged_error (g : Grid)
    (hm : missingColumns g.header = [])
    (r : Nat × Cell × Cell × Cell)
    (hr : r ∈ selectRows (lowerHeader g.header) g.rows)
    (hnb : rowHasBlank r = false)
    (s : String) (hs : r.2.1 = Cell.str s) (hemp : pyStrip s = "") :
    upload_excel g =
      Response.httpError 400 (validationDetail (allErrors (cleanedRows g))) ∧
    emptyMsg r.1 ∈ allErrors (cleanedRows g) ∧
    containsSeq (validationDetail (allErrors (cleanedRows g))).data
      (emptyMsg r.1).data = true := by
  have hdrop : r ∈ dropna (selectRows (lowerHeader g.header) g.rows) := by
    unfold dropna
    exact List.mem_filter.mpr ⟨hr, by simp [hnb]⟩
  have ho1 : (selectRows (lowerHeader g.header) g.rows).any
      (fun x => isStr x.2.1) = true :=
    List.any_eq_true.mpr ⟨r, hr, by rw [hs]; rfl⟩
  have hmem : stripFun
      ((selectRows (lowerHeader g.header) g.rows).any (fun x => isStr x.2.1))
      ((selectRows (lowerHeader g.header) g.rows).any (fun x => isStr x.2.2.1))
      ((selectRows (lowerHeader g.header) g.rows).any (fun x => isStr x.2.2.2))
      r ∈ cleanedRows g := by
    unfold cleanedRows stripRows
    exact List.mem_map_of_mem _ hdrop
  rw [ho1] at hmem
  have hae : emptyMsg r.1 ∈ allErrors (cleanedRows g) :=
    mem_allErrors hmem (emptyMsg_mem_rowErrors_of_strip _ _ r s hs hemp)
  have hne : allErrors (cleanedRows g) ≠ [] := List.ne_nil_of_mem hae
  exact ⟨upload_excel_error_of_errs hm hne, hae, validationDetail_containsSeq hae⟩

/-- Witness for `empty_name_row_tagged_error` at the grid with data row
["", 2, 3]. -/
theorem empty_name_row_tagged_error_witness :
    upload_excel gEmptyName =
      Response.httpError 400 (validationDetail (allErrors (cleanedRows gEmptyName))) ∧
    emptyMsg 0 ∈ allErrors (cleanedRows gEmptyName) ∧
    containsSeq (validationDetail (allErrors (cleanedRows gEmptyName))).data
      (emptyMsg 0).data = true :=
  empty_name_row_tagged_error gEmptyName rfl
    (0, Cell.str "", Cell.int 2, Cell.int 3) (by decide) (by decide) "" rfl rfl

/-- C10: a successful response returns exactly the cleaned raw cells (the
selected columns after dropna and the whitespace strip of object columns),
not the integers computed during coercion; concretely, a pcivalue_2019 cell
holding the string "3" and a pcivalue_2021 cell holding the float 3.0 come
back in that original form, not as integer cells. -/
theorem records_are_raw_cells :
    (∀ (g : Grid) (recs : List (Cell × Cell × Cell)),
        upload_excel g = Response.ok recs →
        recs = (cleanedRows g).map (fun r => r.2)) ∧
    upload_excel gRawCells =
      Response.ok [(Cell.str "Main St", Cell.str "3", Cell.float 3 false)] := by
  constructor
  · intro g recs h
    unfold upload_excel at h
    by_cases hm : missingColumns g.header = []
    · rw [if_pos hm] at h
      by_cases he : allErrors (cleanedRows g) = []
      · rw [if_pos he] at h
        injection h with h2
        exact h2.symm
      · rw [if_neg he] at h
        exact Response.noConfusion h
    · rw [if_neg hm] at h
      exact Response.noConfusion h
  · decide

/-- Witness for `records_are_raw_cells`: the record list of the concrete
grid equals the cleaned raw cells. -/
theorem records_are_raw_cells_witness :
    [(Cell.str "Main St", Cell.str "3", Cell.float 3 false)] =
      (cleanedRows gRawCells).map (fun r => r.2) :=
  records_are_raw_cells.1 gRawCells _ records_are_raw_cells.2

theorem goodSel_selectRowsAux (lh : List String) :
    ∀ (rows : List (List Cell)), (∀ row ∈ rows, GoodRow lh row) →
    ∀ (i : Nat), ∀ r ∈ selectRowsAux lh i rows, GoodSel r := by
  intro rows
  induction rows with
  | nil => intro _ i r hr; cases hr
  | cons row rest ih =>
    intro hall i r hr
    rcases List.mem_cons.mp hr with h | h
    · subst h
      exact hall row (List.mem_cons_self _ _)
    · exact ih (fun x hx => hall x (List.mem_cons_of_mem _ hx)) (i + 1) r h

theorem dropna_eq_self {xs : List (Nat × Cell × Cell × Cell)}
    (h : ∀ r ∈ xs, GoodSel r) : dropna xs = xs := by
  unfold dropna
  refine List.filter_eq_self.mpr ?_
  intro r hr
  obtain ⟨⟨s, hs, _⟩, ⟨a, ha, _⟩, ⟨b, hb, _⟩⟩ := h r hr
  simp [rowHasBlank, hs, ha, hb, isBlank]

theorem stripRows_good {xs : List (Nat × Cell × Cell × Cell)}
    (h : ∀ r ∈ xs, GoodSel r) :
    stripRows xs xs =
      xs.map (fun r => (r.1, stripCell r.2.1, r.2.2.1, r.2.2.2)) := by
  unfold stripRows
  have ho2 : xs.any (fun r => isStr r.2.2.1) = false := by
    refine List.any_eq_false.mpr ?_
    intro r hr
    obtain ⟨_, ⟨a, ha, _⟩, _⟩ := h r hr
    simp [ha, isStr]
  have ho3 : xs.any (fun r => isStr r.2.2.2) = false := by
    refine List.any_eq_false.mpr ?_
    intro r hr
    obtain ⟨_, _, ⟨b, hb, _⟩⟩ := h r hr
    simp [hb, isStr]
  rw [ho2, ho3]
  rcases hxs : xs with _ | ⟨r0, rest⟩
  · rfl
  · have ho1 : ((r0 :: rest).any (fun r => isStr r.2.1)) = true := by
      obtain ⟨s, hs, _⟩ := (h r0 (hxs ▸ List.mem_cons_self r0 rest)).1
      exact List.any_eq_true.mpr ⟨r0, List.mem_cons_self _ _, by rw [hs]; rfl⟩
    rw [ho1]
    rfl

theorem selectRowsAux_records (lh : List String) :
    ∀ (rows : List (List Cell)) (i : Nat),
    (selectRowsAux lh i rows).map (fun r => (stripCell r.2.1, r.2.2.1, r.2.2.2)) =
      rows.map (recordOfRow lh) := by
  intro rows
  induction rows with
  | nil => intro i; rfl
  | cons row rest ih =>
    intro i
    show (recordOfRow lh row) :: _ = (recordOfRow lh row) :: _
    rw [ih (i + 1)]

theorem rowErrors_nil_of_good {r : Nat × Cell × Cell × Cell} (h : GoodSel r) :
    rowErrors r.1 (stripCell r.2.1) r.2.2.1 r.2.2.2 = [] := by
  obtain ⟨⟨s, hs, hsne⟩, ⟨a, ha, ha1, ha5⟩, ⟨b, hb, hb1, hb5⟩⟩ := h
  rw [hs, ha, hb]
  have hpci : pciErrors r.1 (Cell.int a) (Cell.int b) = [] := by
    have heq : pciErrors r.1 (Cell.int a) (Cell.int b) =
        (if 1 ≤ a ∧ a ≤ 5 then [] else [rangeMsg2019 r.1 a]) ++
        (if 1 ≤ b ∧ b ≤ 5 then [] else [rangeMsg2021 r.1 b]) := rfl
    rw [heq, if_pos ⟨ha1, ha5⟩, if_pos ⟨hb1, hb5⟩]
    rfl
  have hname : nameError r.1 (stripCell (Cell.str s)) = [] := by
    have hval : strStripEmpty (stripCell (Cell.str s)) = (pyStrip s == "") := by
      show (pyStrip (pyStrip s) == "") = (pyStrip s == "")
      rw [pyStrip_idem]
    unfold nameError
    rw [if_neg ?_]
    intro hc
    rw [hval] at hc
    exact hsne (by simpa using hc)
  unfold rowErrors
  rw [hpci, hname]
  rfl

theorem allErrors_nil_of_good {xs : List (Nat × Cell × Cell × Cell)}
    (h : ∀ r ∈ xs, GoodSel r) :
    allErrors (xs.map (fun r => (r.1, stripCell r.2.1, r.2.2.1, r.2.2.2))) = [] := by
  unfold allErrors
  rw [List.map_map]
  refine List.flatten_eq_nil_iff.mpr ?_
  intro l hl
  rcases List.mem_map.mp hl with ⟨r, hr, hrl⟩
  rw [← hrl]
  exact rowErrors_nil_of_good (h r hr)

/-- C1: when every required column resolves in the lowered header and every
data row is well formed (non-empty trimmed road_name text, integer PCI cells
in [1,5]), the endpoint returns HTTP 200 with one record per data row, in
source order: the record list is exactly the row-wise image of the source
rows, so its length equals the number of data rows. -/
theorem upload_all_valid_ok (g : Grid)
    (hcols : ∀ c ∈ REQUIRED_COLUMNS, c ∈ lowerHeader g.header)
    (hgood : ∀ row ∈ g.rows, GoodRow (lowerHeader g.header) row) :
    upload_excel g =
      Response.ok (g.rows.map (recordOfRow (lowerHeader g.header))) ∧
    (g.rows.map (recordOfRow (lowerHeader g.header))).length = g.rows.length := by
  have hm : missingColumns g.header = [] := by
    unfold missingColumns
    refine List.filter_eq_nil_iff.mpr ?_
    intro c hc
    simp [hcols c hc]
  have hsel : ∀ r ∈ selectRows (lowerHeader g.header) g.rows, GoodSel r :=
    fun r hr => goodSel_selectRowsAux _ _ hgood 0 r hr
  have hdrop : dropna (selectRows (lowerHeader g.header) g.rows) =
      selectRows (lowerHeader g.header) g.rows := dropna_eq_self hsel
  have hclean : cleanedRows g = (selectRows (lowerHeader g.header) g.rows).map
      (fun r => (r.1, stripCell r.2.1, r.2.2.1, r.2.2.2)) := by
    unfold cleanedRows
    rw [hdrop]
    exact stripRows_good hsel
  have herr : allErrors (cleanedRows g) = [] := by
    rw [hclean]
    exact allErrors_nil_of_good hsel
  have hrecs : (cleanedRows g).map (fun r => r.2) =
      g.rows.map (recordOfRow (lowerHeader g.header)) := by
    rw [hclean, List.map_map]
    exact selectRowsAux_records _ g.rows 0
  refine ⟨?_, List.length_map _ _⟩
  unfold upload_excel
  rw [if_pos hm, if_pos herr, hrecs]

/-- Witness for `upload_all_valid_ok` at the one-row grid
["Main St", 3, 4]. -/
theorem upload_all_valid_ok_witness :
    upload_excel gValid =
      Response.ok (gValid.rows.map (recordOfRow (lowerHeader gValid.header))) ∧
    (gValid.rows.map (recordOfRow (lowerHeader gValid.header))).length =
      gValid.rows.length := by
  refine upload_all_valid_ok gValid (by decide) ?_
  intro row hrow
  have hr : row = [Cell.str "Main St", Cell.int 3, Cell.int 4] := by
    simpa [gValid, hdr3] using hrow
  subst hr
  exact ⟨⟨"Main St", rfl, by decide⟩, ⟨3, rfl, by decide, by decide⟩,
    ⟨4, rfl, by decide, by decide⟩⟩

end PciExtract
